import Mathlib

/-!
Verification of the superops-mcp server (TypeScript sources under src/).

The development shallowly embeds the pure request-shaping core of the
program: the JSON-like values the dispatcher manipulates, the per-domain
tool modules (src/domains/clients.ts, tickets.ts, assets.ts,
technicians.ts, and the custom domain module), the GraphQL transport
error normalization (src/client.ts, SuperOpsClient.query), and the
navigation / dispatch state machine of src/index.ts.

Network effects are represented by an explicit oracle: a function from
the GraphQL operation and its variables object to either a data payload
or a thrown value.  The mutable `currentDomain` variable of index.ts is
threaded as explicit state.  The lazy module cache of index.ts is not
modelled: module construction is side-effect-free, so memoization is
observationally transparent.
-/

namespace SuperOps

/-- JSON-like values, as manipulated by the dispatcher.  `undef` models
the JavaScript `undefined` value (an absent object property).  Objects
keep insertion order, as JavaScript objects do. -/
inductive JVal where
  | str (s : String)
  | num (n : Int)
  | bool (b : Bool)
  | null
  | undefined
  | arr (elems : List JVal)
  | obj (fields : List (String × JVal))

/-- Field read on an ordered association list (first match wins; keys are
unique in every object the program builds). -/
def getField : List (String × JVal) → String → Option JVal
  | [], _ => none
  | (k2, v) :: rest, k => if k2 = k then some v else getField rest k

/-- JavaScript property assignment `o.k = v`: replace the value in place
when the key is present, append otherwise. -/
def setField : List (String × JVal) → String → JVal → List (String × JVal)
  | [], k, v => [(k, v)]
  | (k2, v2) :: rest, k, v =>
      if k2 = k then (k, v) :: rest else (k2, v2) :: setField rest k v

/-- JavaScript property access `v.k`, yielding `undefined` when the key is
missing or the value is not an object. -/
def JVal.get (v : JVal) (k : String) : JVal :=
  match v with
  | .obj fields => (getField fields k).getD .undefined
  | _ => .undefined

/-- JavaScript truthiness of a value. -/
def JVal.truthy : JVal → Bool
  | .str s => !s.isEmpty
  | .num n => n != 0
  | .bool b => b
  | .null => false
  | .undefined => false
  | .arr _ => true
  | .obj _ => true

mutual

/-- Model of `JSON.stringify`, abstracting from indentation whitespace and string
escaping (the program only ever prints the payload; no code inspects the
printed text). -/
def JVal.stringify : JVal → String
  | .str s => "\"" ++ s ++ "\""
  | .num n => toString n
  | .bool true => "true"
  | .bool false => "false"
  | .null => "null"
  | .undefined => "undefined"
  | .arr xs => "[" ++ stringifyElems xs ++ "]"
  | .obj fs => "\x7b" ++ stringifyFields fs ++ "\x7d"

def stringifyElems : List JVal → String
  | [] => ""
  | [x] => x.stringify
  | x :: rest => x.stringify ++ "," ++ stringifyElems rest

def stringifyFields : List (String × JVal) → String
  | [] => ""
  | [(k, v)] => "\"" ++ k ++ "\":" ++ v.stringify
  | (k, v) :: rest => "\"" ++ k ++ "\":" ++ v.stringify ++ "," ++ stringifyFields rest

end

/-- A thrown JavaScript value crossing a try/catch boundary.  `err` is a
plain `Error` (carrying its `.message`), `superOps` is the `SuperOpsError`
subclass of src/client.ts (message, optional code, optional retryAfter),
and `other` is a non-Error thrown value, represented by its string
coercion `String(value)`. -/
inductive Thrown where
  | err (message : String)
  | superOps (message : String) (code : Option String) (retryAfter : Option Int)
  | other (coerced : String)
deriving Repr, DecidableEq

/-- The expression `error instanceof Error ? error.message : String(error)` — the message
extraction used by every catch block in the program. -/
def Thrown.coerceMessage : Thrown → String
  | .err m => m
  | .superOps m _ _ => m
  | .other s => s

/-- A tool-call result.  Every result the program builds is a single text
content block, so the `content` array is represented by its only text. -/
structure CallResult where
  text : String
  isError : Bool
deriving Repr, DecidableEq

/-- The catch block shared (textually identical) by every domain module:
convert a thrown value into an `Error: <message>` error result. -/
def runCatch (body : Except Thrown CallResult) : CallResult :=
  match body with
  | .ok r => r
  | .error t => ⟨"Error: " ++ t.coerceMessage, true⟩

/-- Names for the GraphQL operation strings sent over the wire.  The
query text constants of the domain modules are opaque data never
inspected by the dispatch logic, so they are identified by name; the
custom domain sends a caller-supplied operation string. -/
inductive GqlOp where
  | listClients
  | getClientOp
  | searchClients
  | listTickets
  | getTicketOp
  | createTicket
  | updateTicket
  | addTicketNote
  | addTimeEntry
  | listAssets
  | getAssetOp
  | assetSoftware
  | assetPatches
  | listTechnicians
  | getTechnicianOp
  | listTechGroups
  | custom (text : String)
deriving Repr, DecidableEq

/-- The network: `client.query(OP, variables)` either returns the data
payload or throws. -/
def NetOracle : Type := GqlOp → JVal → Except Thrown JVal

/-- A network that always throws the given value. -/
def throwNet (t : Thrown) : NetOracle := fun _ _ => .error t

/-- Model of `if (params.k) o.k = f(params.k)` for an optional string parameter:
JavaScript string truthiness makes both a missing and an empty string
fall through. -/
def addStrFieldWith (o : List (String × JVal)) (k : String) (v : Option String)
    (f : String → JVal) : List (String × JVal) :=
  match v with
  | some s => if s.isEmpty then o else setField o k (f s)
  | none => o

/-- Model of `if (params.k) o.k = params.k` for an optional string parameter. -/
def addStrField (o : List (String × JVal)) (k : String) (v : Option String) :
    List (String × JVal) :=
  addStrFieldWith o k v JVal.str

/-- Model of `Math.min(params.max ?? dflt, cap)` — the clamp applied to every
"max results" parameter. -/
def clampFirst (requested : Option Int) (dflt : Int) (cap : Int) : Int :=
  min (requested.getD dflt) cap

/-- Model of `params.cursor && ({ after: params.cursor })` — the conditionally
spread pagination field. -/
def afterFields (cursor : Option String) : List (String × JVal) :=
  match cursor with
  | some c => if c.isEmpty then [] else [("after", .str c)]
  | none => []

/-- Model of `Object.keys(filter).length > 0 && ({ filter })` — the conditionally
spread filter field. -/
def filterFields (filter : List (String × JVal)) : List (String × JVal) :=
  if filter.isEmpty then [] else [("filter", .obj filter)]

/-- An optional string forwarded as-is: absent becomes `undefined`. -/
def joptStr : Option String → JVal
  | some s => .str s
  | none => .undefined

/-- Model of `s.toUpperCase()` on the ASCII enum values the tools accept:
character-wise upper-casing. -/
def jsToUpper (s : String) : String :=
  ⟨s.data.map Char.toUpper⟩

/-! ## Clients domain (src/domains/clients.ts) -/

/-- Arguments of superops_clients_list, as cast in handleCall. -/
structure ClientsListParams where
  status : Option String := none
  stage : Option String := none
  max : Option Int := none
  cursor : Option String := none

/-- Filter building of superops_clients_list. -/
def clientsListFilter (p : ClientsListParams) : List (String × JVal) :=
  let f := addStrField [] "status" p.status
  addStrField f "stage" p.stage

/-- The `input` object of the superops_clients_list request. -/
def clientsListInput (p : ClientsListParams) : List (String × JVal) :=
  [("first", JVal.num (clampFirst p.max 50 500))]
    ++ afterFields p.cursor
    ++ filterFields (clientsListFilter p)
    ++ [("orderBy", JVal.obj [("field", .str "name"), ("direction", .str "ASC")])]

/-- The `input` object of the superops_clients_search request. -/
def clientsSearchInput (query : String) (maxArg : Option Int) : List (String × JVal) :=
  [("first", JVal.num (clampFirst maxArg 20 100)),
   ("filter", JVal.obj [("or", JVal.arr
     [JVal.obj [("name", JVal.obj [("contains", .str query)])],
      JVal.obj [("emailDomains", JVal.obj [("contains", .str query)])]])])]

/-- A call into the clients module: one constructor per switch case, with
the typed view the case casts its arguments to, plus the default case. -/
inductive ClientsCall where
  | list (p : ClientsListParams)
  | get (accountId : String)
  | search (query : String) (maxArg : Option Int)
  | unknown (name : String)

/-- Body of the clients handleCall try block.  `getClient()` is resolved
before the try block and cannot throw on any path the dispatcher reaches
(the index-level credential gate runs first). -/
def clientsHandleBody (net : NetOracle) : ClientsCall → Except Thrown CallResult
  | .list p =>
      (net .listClients (.obj [("input", .obj (clientsListInput p))])).map
        (fun d => ⟨(d.get "getClientList").stringify, false⟩)
  | .get accountId =>
      (net .getClientOp (.obj [("input", .obj [("accountId", .str accountId)])])).map
        (fun d => ⟨(d.get "getClient").stringify, false⟩)
  | .search q m =>
      (net .searchClients (.obj [("input", .obj (clientsSearchInput q m))])).map
        (fun d => ⟨(d.get "getClientList").stringify, false⟩)
  | .unknown name => .ok ⟨"Unknown clients tool: " ++ name, true⟩

/-- handleCall of the clients module. -/
def clientsHandleCall (net : NetOracle) (c : ClientsCall) : CallResult :=
  runCatch (clientsHandleBody net c)

/-! ## Tickets domain (src/domains/tickets.ts) -/

/-- Arguments of superops_tickets_list.  `status` and `priority` are
string arrays; an array argument is truthy even when empty. -/
structure TicketsListParams where
  status : Option (List String) := none
  priority : Option (List String) := none
  clientId : Option String := none
  assigneeId : Option String := none
  unassigned : Option Bool := none
  max : Option Int := none
  cursor : Option String := none

/-- Filter building of superops_tickets_list.  When `unassigned` is true
the `assignee` property is assigned `null` (overwriting the object set
from `assigneeId`, if any). -/
def ticketsListFilter (p : TicketsListParams) : List (String × JVal) :=
  let f : List (String × JVal) := []
  let f := match p.status with
    | some xs => setField f "status" (.arr (xs.map JVal.str))
    | none => f
  let f := match p.priority with
    | some xs => setField f "priority" (.arr (xs.map JVal.str))
    | none => f
  let f := addStrFieldWith f "client" p.clientId (fun s => .obj [("accountId", .str s)])
  let f := addStrFieldWith f "assignee" p.assigneeId (fun s => .obj [("id", .str s)])
  if p.unassigned = some true then setField f "assignee" .null else f

/-- The `input` object of the superops_tickets_list request. -/
def ticketsListInput (p : TicketsListParams) : List (String × JVal) :=
  [("first", JVal.num (clampFirst p.max 50 500))]
    ++ afterFields p.cursor
    ++ filterFields (ticketsListFilter p)
    ++ [("orderBy", JVal.obj [("field", .str "createdTime"), ("direction", .str "DESC")])]

/-- Arguments of superops_tickets_create. -/
structure TicketsCreateParams where
  subject : String
  clientId : String
  description : Option String := none
  priority : Option String := none
  requesterEmail : Option String := none
  techGroupName : Option String := none
  categoryName : Option String := none

/-- The mutation `input` of superops_tickets_create.  The `priority`
value is upper-cased before inclusion. -/
def ticketsCreateInput (p : TicketsCreateParams) : List (String × JVal) :=
  let i : List (String × JVal) :=
    [("subject", .str p.subject), ("client", JVal.obj [("accountId", .str p.clientId)])]
  let i := addStrField i "description" p.description
  let i := addStrFieldWith i "priority" p.priority (fun s => .str (jsToUpper s))
  let i := addStrFieldWith i "requester" p.requesterEmail (fun s => .obj [("email", .str s)])
  let i := addStrFieldWith i "techGroup" p.techGroupName (fun s => .obj [("name", .str s)])
  addStrFieldWith i "category" p.categoryName (fun s => .obj [("name", .str s)])

/-- Arguments of superops_tickets_update. -/
structure TicketsUpdateParams where
  ticketId : String
  status : Option String := none
  priority : Option String := none
  assigneeId : Option String := none
  techGroupName : Option String := none
  resolution : Option String := none

/-- The mutation `input` of superops_tickets_update.  `status` is passed
through unchanged; only `priority` is upper-cased. -/
def ticketsUpdateInput (p : TicketsUpdateParams) : List (String × JVal) :=
  let i : List (String × JVal) := [("ticketId", .str p.ticketId)]
  let i := addStrField i "status" p.status
  let i := addStrFieldWith i "priority" p.priority (fun s => .str (jsToUpper s))
  let i := addStrFieldWith i "assignee" p.assigneeId (fun s => .obj [("id", .str s)])
  let i := addStrFieldWith i "techGroup" p.techGroupName (fun s => .obj [("name", .str s)])
  addStrField i "resolution" p.resolution

/-- Arguments of superops_tickets_add_note. -/
structure TicketsAddNoteParams where
  ticketId : String
  content : String
  isPublic : Option Bool := none

/-- The mutation `input` of superops_tickets_add_note. -/
def ticketsAddNoteInput (p : TicketsAddNoteParams) : List (String × JVal) :=
  [("ticketId", .str p.ticketId), ("content", .str p.content),
   ("isPublic", .bool (p.isPublic.getD false))]

/-- Arguments of superops_tickets_log_time. -/
structure TicketsLogTimeParams where
  ticketId : String
  duration : Int
  description : Option String := none
  workType : Option String := none
  billable : Option Bool := none

/-- The mutation `input` of superops_tickets_log_time.  `description` and
`workType` are forwarded even when absent (as `undefined`). -/
def ticketsLogTimeInput (p : TicketsLogTimeParams) : List (String × JVal) :=
  [("ticketId", .str p.ticketId), ("duration", .num p.duration),
   ("description", joptStr p.description), ("workType", joptStr p.workType),
   ("billable", .bool (p.billable.getD true))]

/-- A call into the tickets module. -/
inductive TicketsCall where
  | list (p : TicketsListParams)
  | get (ticketId : String)
  | create (p : TicketsCreateParams)
  | update (p : TicketsUpdateParams)
  | addNote (p : TicketsAddNoteParams)
  | logTime (p : TicketsLogTimeParams)
  | unknown (name : String)

/-- Body of the tickets handleCall try block. -/
def ticketsHandleBody (net : NetOracle) : TicketsCall → Except Thrown CallResult
  | .list p =>
      (net .listTickets (.obj [("input", .obj (ticketsListInput p))])).map
        (fun d => ⟨(d.get "getTicketList").stringify, false⟩)
  | .get ticketId =>
      (net .getTicketOp (.obj [("input", .obj [("ticketId", .str ticketId)])])).map
        (fun d => ⟨(d.get "getTicket").stringify, false⟩)
  | .create p =>
      (net .createTicket (.obj [("input", .obj (ticketsCreateInput p))])).map
        (fun d => ⟨(d.get "createTicket").stringify, false⟩)
  | .update p =>
      (net .updateTicket (.obj [("input", .obj (ticketsUpdateInput p))])).map
        (fun d => ⟨(d.get "updateTicket").stringify, false⟩)
  | .addNote p =>
      (net .addTicketNote (.obj [("input", .obj (ticketsAddNoteInput p))])).map
        (fun d => ⟨(d.get "addTicketNote").stringify, false⟩)
  | .logTime p =>
      (net .addTimeEntry (.obj [("input", .obj (ticketsLogTimeInput p))])).map
        (fun d => ⟨(d.get "addTicketTimeEntry").stringify, false⟩)
  | .unknown name => .ok ⟨"Unknown tickets tool: " ++ name, true⟩

/-- handleCall of the tickets module. -/
def ticketsHandleCall (net : NetOracle) (c : TicketsCall) : CallResult :=
  runCatch (ticketsHandleBody net c)

/-! ## Assets domain (src/domains/assets.ts) -/

/-- Arguments of superops_assets_list. -/
structure AssetsListParams where
  status : Option String := none
  platform : Option String := none
  clientId : Option String := none
  max : Option Int := none
  cursor : Option String := none

/-- Filter building of superops_assets_list. -/
def assetsListFilter (p : AssetsListParams) : List (String × JVal) :=
  let f := addStrField [] "status" p.status
  let f := addStrField f "platform" p.platform
  addStrFieldWith f "client" p.clientId (fun s => .obj [("accountId", .str s)])

/-- The `input` object of the superops_assets_list request (default max
100, cap 500). -/
def assetsListInput (p : AssetsListParams) : List (String × JVal) :=
  [("first", JVal.num (clampFirst p.max 100 500))]
    ++ afterFields p.cursor
    ++ filterFields (assetsListFilter p)
    ++ [("orderBy", JVal.obj [("field", .str "name"), ("direction", .str "ASC")])]

/-- Arguments of superops_assets_software. -/
structure AssetsSoftwareParams where
  assetId : String
  search : Option String := none
  max : Option Int := none

/-- The `input` object of the superops_assets_software request. -/
def assetsSoftwareInput (p : AssetsSoftwareParams) : List (String × JVal) :=
  [("assetId", JVal.str p.assetId), ("first", JVal.num (clampFirst p.max 100 500))]
    ++ filterFields (addStrFieldWith [] "name" p.search (fun s => .obj [("contains", .str s)]))

/-- Arguments of superops_assets_patches. -/
structure AssetsPatchesParams where
  assetId : String
  status : Option String := none
  severity : Option (List String) := none

/-- The `input` object of the superops_assets_patches request. -/
def assetsPatchesInput (p : AssetsPatchesParams) : List (String × JVal) :=
  let f := addStrField [] "status" p.status
  let f := match p.severity with
    | some xs => setField f "severity" (.arr (xs.map JVal.str))
    | none => f
  [("assetId", JVal.str p.assetId)] ++ filterFields f

/-- A call into the assets module. -/
inductive AssetsCall where
  | list (p : AssetsListParams)
  | get (assetId : String)
  | software (p : AssetsSoftwareParams)
  | patches (p : AssetsPatchesParams)
  | unknown (name : String)

/-- Body of the assets handleCall try block. -/
def assetsHandleBody (net : NetOracle) : AssetsCall → Except Thrown CallResult
  | .list p =>
      (net .listAssets (.obj [("input", .obj (assetsListInput p))])).map
        (fun d => ⟨(d.get "getAssetList").stringify, false⟩)
  | .get assetId =>
      (net .getAssetOp (.obj [("input", .obj [("assetId", .str assetId)])])).map
        (fun d => ⟨(d.get "getAsset").stringify, false⟩)
  | .software p =>
      (net .assetSoftware (.obj [("input", .obj (assetsSoftwareInput p))])).map
        (fun d => ⟨(d.get "getAssetSoftwareList").stringify, false⟩)
  | .patches p =>
      (net .assetPatches (.obj [("input", .obj (assetsPatchesInput p))])).map
        (fun d => ⟨(d.get "getAssetPatchDetails").stringify, false⟩)
  | .unknown name => .ok ⟨"Unknown assets tool: " ++ name, true⟩

/-- handleCall of the assets module. -/
def assetsHandleCall (net : NetOracle) (c : AssetsCall) : CallResult :=
  runCatch (assetsHandleBody net c)

/-! ## Technicians domain (src/domains/technicians.ts) -/

/-- Arguments of superops_technicians_list. -/
structure TechniciansListParams where
  activeOnly : Option Bool := none
  teamId : Option String := none
  max : Option Int := none
  cursor : Option String := none

/-- Filter building of superops_technicians_list:
`if (params.activeOnly !== false) filter.isActive = true` — the key is
contributed unless the argument is literally `false`. -/
def techniciansListFilter (p : TechniciansListParams) : List (String × JVal) :=
  let f : List (String × JVal) :=
    if p.activeOnly ≠ some false then setField [] "isActive" (.bool true) else []
  addStrFieldWith f "teams" p.teamId (fun s => .obj [("id", .str s)])

/-- The `input` object of the superops_technicians_list request. -/
def techniciansListInput (p : TechniciansListParams) : List (String × JVal) :=
  [("first", JVal.num (clampFirst p.max 50 500))]
    ++ afterFields p.cursor
    ++ filterFields (techniciansListFilter p)
    ++ [("orderBy", JVal.obj [("field", .str "name"), ("direction", .str "ASC")])]

/-- A call into the technicians module. -/
inductive TechniciansCall where
  | list (p : TechniciansListParams)
  | get (technicianId : String)
  | groups (maxArg : Option Int)
  | unknown (name : String)

/-- Body of the technicians handleCall try block. -/
def techniciansHandleBody (net : NetOracle) : TechniciansCall → Except Thrown CallResult
  | .list p =>
      (net .listTechnicians (.obj [("input", .obj (techniciansListInput p))])).map
        (fun d => ⟨(d.get "getTechnicianList").stringify, false⟩)
  | .get technicianId =>
      (net .getTechnicianOp (.obj [("input", .obj [("id", .str technicianId)])])).map
        (fun d => ⟨(d.get "getTechnician").stringify, false⟩)
  | .groups m =>
      (net .listTechGroups (.obj [("input", .obj [("first", .num (clampFirst m 50 500))])])).map
        (fun d => ⟨(d.get "getTechGroupList").stringify, false⟩)
  | .unknown name => .ok ⟨"Unknown technicians tool: " ++ name, true⟩

/-- handleCall of the technicians module. -/
def techniciansHandleCall (net : NetOracle) (c : TechniciansCall) : CallResult :=
  runCatch (techniciansHandleBody net c)

/-! ## Custom domain (the getCustomTools module) -/

/-- A call into the custom module.  The operation text is the caller-
supplied GraphQL string; variables are forwarded as-is (possibly
`undefined`). -/
inductive CustomCall where
  | query (text : String) (vars : Option JVal)
  | mutation (text : String) (vars : Option JVal)
  | unknown (name : String)

/-- Body of the custom handleCall try block; the whole data payload is
printed. -/
def customHandleBody (net : NetOracle) : CustomCall → Except Thrown CallResult
  | .query text vars =>
      (net (.custom text) (vars.getD .undefined)).map (fun d => ⟨d.stringify, false⟩)
  | .mutation text vars =>
      (net (.custom text) (vars.getD .undefined)).map (fun d => ⟨d.stringify, false⟩)
  | .unknown name => .ok ⟨"Unknown custom tool: " ++ name, true⟩

/-- handleCall of the custom module. -/
def customHandleCall (net : NetOracle) (c : CustomCall) : CallResult :=
  runCatch (customHandleBody net c)

/-! ## Transport client (src/client.ts) -/

/-- The vendor extension fields of a GraphQL error. -/
structure GqlExtensions where
  code : Option String := none
  retryAfter : Option Int := none

/-- One entry of a GraphQL error array. -/
structure GqlError where
  message : String
  extensions : Option GqlExtensions := none

/-- The parsed JSON body of a GraphQL response: both fields optional. -/
structure GqlResponseBody where
  data : Option JVal := none
  errors : Option (List GqlError) := none

/-- An HTTP response as observed by `SuperOpsClient.query`. -/
structure HttpResponse where
  ok : Bool
  status : Int
  statusText : String
  body : GqlResponseBody

/-- Model of `SuperOpsClient.query`: normalize an HTTP response into either the
data payload or one of three thrown errors (HTTP failure, first GraphQL
error, missing data). -/
def SuperOpsClient.query (resp : HttpResponse) : Except Thrown JVal :=
  if !resp.ok then
    .error (.err ("HTTP error: " ++ toString resp.status ++ " " ++ resp.statusText))
  else
    match resp.body.errors with
    | some (e :: _) =>
        .error (.superOps e.message (e.extensions.bind (fun x => x.code))
          (e.extensions.bind (fun x => x.retryAfter)))
    | _ =>
        match resp.body.data with
        | some d =>
            if d.truthy then .ok d
            else .error (.err "No data returned from GraphQL query")
        | none => .error (.err "No data returned from GraphQL query")

/-- Model of `SuperOpsClient.mutate`: it reuses the query path verbatim. -/
def SuperOpsClient.mutate (resp : HttpResponse) : Except Thrown JVal :=
  SuperOpsClient.query resp

/-! ## Navigation / dispatch core (src/index.ts) -/

/-- The closed domain enumeration. -/
inductive Domain where
  | clients
  | tickets
  | assets
  | technicians
  | custom
deriving Repr, DecidableEq

/-- The string name of a domain. -/
def Domain.name : Domain → String
  | .clients => "clients"
  | .tickets => "tickets"
  | .assets => "assets"
  | .technicians => "technicians"
  | .custom => "custom"

/-- Model of `validDomains.includes(domain)` together with the cast to `Domain`. -/
def Domain.ofString? (s : String) : Option Domain :=
  if s = "clients" then some .clients
  else if s = "tickets" then some .tickets
  else if s = "assets" then some .assets
  else if s = "technicians" then some .technicians
  else if s = "custom" then some .custom
  else none

/-- The fixed scan order of the fallback loop (`allDomains` in
index.ts), which is also the order of the navigate tool enum. -/
def allDomains : List Domain :=
  [.clients, .tickets, .assets, .technicians, .custom]

/-- A tool definition as advertised by the server.  The `inputSchema` is
inert data the dispatcher never reads, so only the identifying name and
the description are carried. -/
structure ToolDefinition where
  name : String
  description : String
deriving Repr, DecidableEq

/-- The navigation tool. -/
def navigationTool : ToolDefinition :=
  ⟨"superops_navigate",
   "Navigate to a SuperOps.ai domain to access its tools. Available domains: clients (accounts/companies), tickets (service desk), assets (endpoints/devices), technicians (agents/teams), custom (advanced GraphQL queries)."⟩

/-- The back/reset tool. -/
def backTool : ToolDefinition :=
  ⟨"superops_back",
   "Return to the main navigation menu to select a different domain."⟩

/-- The connection test tool. -/
def testConnectionTool : ToolDefinition :=
  ⟨"superops_test_connection",
   "Test the connection to SuperOps.ai API using configured credentials."⟩

/-- The tool catalog of each domain module, in declaration order. -/
def domainToolDefs : Domain → List ToolDefinition
  | .clients =>
      [⟨"superops_clients_list",
        "List clients (accounts) in SuperOps.ai. Can filter by status, stage, or paginate through results."⟩,
       ⟨"superops_clients_get",
        "Get detailed information for a specific client by their account ID."⟩,
       ⟨"superops_clients_search",
        "Search for clients by name or email domain. Returns matching clients with basic information."⟩]
  | .tickets =>
      [⟨"superops_tickets_list",
        "List tickets in SuperOps.ai. Can filter by status, priority, client, or assignee."⟩,
       ⟨"superops_tickets_get",
        "Get detailed information for a specific ticket by its ID."⟩,
       ⟨"superops_tickets_create",
        "Create a new ticket in SuperOps.ai."⟩,
       ⟨"superops_tickets_update",
        "Update an existing ticket - change status, priority, assignment, or add resolution."⟩,
       ⟨"superops_tickets_add_note",
        "Add a note to a ticket. Can be internal or public (visible to client)."⟩,
       ⟨"superops_tickets_log_time",
        "Log time spent on a ticket."⟩]
  | .assets =>
      [⟨"superops_assets_list",
        "List assets (endpoints) in SuperOps.ai RMM. Can filter by status, platform, or client."⟩,
       ⟨"superops_assets_get",
        "Get detailed information for a specific asset including hardware, OS, and network details."⟩,
       ⟨"superops_assets_software",
        "Get the software inventory for a specific asset."⟩,
       ⟨"superops_assets_patches",
        "Get patch status and pending patches for a specific asset."⟩]
  | .technicians =>
      [⟨"superops_technicians_list",
        "List technicians (agents) in SuperOps.ai. Can filter by active status or team."⟩,
       ⟨"superops_technicians_get",
        "Get detailed information for a specific technician by their ID."⟩,
       ⟨"superops_technicians_groups",
        "List technician groups/teams in SuperOps.ai."⟩]
  | .custom =>
      [⟨"superops_custom_query",
        "Run a custom GraphQL query against the SuperOps.ai API. For advanced use cases not covered by standard tools."⟩,
       ⟨"superops_custom_mutation",
        "Run a custom GraphQL mutation against the SuperOps.ai API. For advanced write operations not covered by standard tools."⟩]

/-- The tool names of a domain catalog
(`domainTools.tools.some((t) => t.name === name)` scans these). -/
def domainToolNames (d : Domain) : List String :=
  (domainToolDefs d).map (fun t => t.name)

/-- The ListTools handler: probe tool always; navigate in navigation
mode; back plus the domain catalog in domain mode. -/
def listTools (st : Option Domain) : List ToolDefinition :=
  [testConnectionTool] ++
    (match st with
     | none => [navigationTool]
     | some d => [backTool] ++ domainToolDefs d)

/-- API region selector. -/
inductive Region where
  | us
  | eu
deriving Repr, DecidableEq

/-- The string name of a region. -/
def Region.name : Region → String
  | .us => "us"
  | .eu => "eu"

/-- Configured credentials (`getCredentials()` result when non-null). -/
structure Credentials where
  apiToken : String
  subdomain : String
  region : Option Region := none

/-- The uniform missing-credentials error text. -/
def credsErrorText : String :=
  "Error: No API credentials configured. Please set SUPEROPS_API_TOKEN and SUPEROPS_SUBDOMAIN environment variables."

/-- The navigate validation error text. -/
def invalidDomainText : String :=
  "Invalid domain. Please choose from: clients, tickets, assets, technicians, custom"

/-- The success text of a navigate call. -/
def navSuccessText (d : Domain) : String :=
  "Navigated to " ++ d.name ++ " domain. Available tools:\n\n"
    ++ String.intercalate "\n"
        ((domainToolDefs d).map (fun t => "- " ++ t.name ++ ": " ++ t.description))
    ++ "\n\nUse superops_back to return to the main menu."

/-- The success text of a back call. -/
def backText : String :=
  "Returned to main navigation. Use superops_navigate to select a domain:\n\n- clients: Manage client accounts and contacts\n- tickets: Service desk and ticket management\n- assets: Endpoint inventory and RMM\n- technicians: Agent and team management\n- custom: Advanced GraphQL queries"

/-- The success text of the connectivity probe. -/
def connectionSuccessText (c : Credentials) : String :=
  "Connection successful!\n\nCredentials configured for:\n- Subdomain: " ++ c.subdomain
    ++ "\n- Region: " ++ ((c.region.map Region.name).getD "us")
    ++ "\n\nAPI is responding correctly."

/-- The top-level unknown tool error text. -/
def unknownToolText (name : String) : String :=
  "Unknown tool: " ++ name ++ ". Use superops_navigate to explore available tools."

/-- The fallback loop of the CallTool handler: scan `allDomains` in
order; the first domain whose catalog contains the name becomes active
and the call is dispatched to it; otherwise an unknown tool error is
returned with the state unchanged.  `hc` abstracts the domain modules
into which the handler dispatches. -/
def fallbackDispatch (hc : Domain → String → JVal → CallResult)
    (st : Option Domain) (name : String) (args : JVal) :
    Option Domain × CallResult :=
  match allDomains.find? (fun d => (domainToolNames d).contains name) with
  | some d => (some d, hc d name args)
  | none => (st, ⟨unknownToolText name, true⟩)

/-- The CallTool request handler of index.ts, threading the mutable
`currentDomain` as explicit state.  `creds` is the `getCredentials()`
result, `hc` the dispatch into the lazily loaded domain modules, `args`
the (possibly absent) arguments object of the request. -/
def callTool (creds : Option Credentials) (hc : Domain → String → JVal → CallResult)
    (st : Option Domain) (name : String) (args : Option JVal) :
    Option Domain × CallResult :=
  if name = "superops_test_connection" then
    match creds with
    | none => (st, ⟨credsErrorText, true⟩)
    | some c =>
        let r := hc .clients "superops_clients_list" (.obj [("max", .num 1)])
        if r.isError then (st, r) else (st, ⟨connectionSuccessText c, false⟩)
  else if name = "superops_navigate" then
    match (args.getD (.obj [])).get "domain" with
    | .str s =>
        match Domain.ofString? s with
        | some d => (some d, ⟨navSuccessText d, false⟩)
        | none => (st, ⟨invalidDomainText, true⟩)
    | _ => (st, ⟨invalidDomainText, true⟩)
  else if name = "superops_back" then
    (none, ⟨backText, false⟩)
  else
    match creds with
    | none => (st, ⟨credsErrorText, true⟩)
    | some _ =>
        match st with
        | some d =>
            if (domainToolNames d).contains name then
              (some d, hc d name (args.getD (.obj [])))
            else fallbackDispatch hc (some d) name (args.getD (.obj []))
        | none => fallbackDispatch hc none name (args.getD (.obj []))

/-- Run a sequence of tool calls, keeping only the navigation state. -/
def runCalls (creds : Option Credentials) (hc : Domain → String → JVal → CallResult)
    (st : Option Domain) (calls : List (String × Option JVal)) : Option Domain :=
  calls.foldl (fun s c => (callTool creds hc s c.1 c.2).1) st

/-- The names of the three navigation tools handled before domain
dispatch. -/
def navToolNames : List String :=
  ["superops_test_connection", "superops_navigate", "superops_back"]

/-! ## Helper lemmas -/

theorem getField_setField_self (o : List (String × JVal)) (k : String) (v : JVal) :
    getField (setField o k v) k = some v := by
  induction o with
  | nil => simp [setField, getField]
  | cons hd tl ih =>
      obtain ⟨k2, v2⟩ := hd
      by_cases h : k2 = k
      · simp [setField, h, getField]
      · simp [setField, h, getField, ih]

theorem getField_setField_ne {o : List (String × JVal)} {k2 k : String} {v : JVal}
    (h : k2 ≠ k) : getField (setField o k2 v) k = getField o k := by
  induction o with
  | nil => simp [setField, getField, h]
  | cons hd tl ih =>
      obtain ⟨k3, v3⟩ := hd
      by_cases h3 : k3 = k2
      · simp [setField, h3, getField, h]
      · simp [setField, h3, getField, ih]

theorem getField_addStrFieldWith_ne {o : List (String × JVal)} {k2 k : String}
    {v : Option String} {f : String → JVal} (h : k2 ≠ k) :
    getField (addStrFieldWith o k2 v f) k = getField o k := by
  unfold addStrFieldWith
  cases v with
  | none => rfl
  | some s =>
      by_cases hs : s.isEmpty
      · simp [hs]
      · simp [hs, getField_setField_ne h]

theorem getField_addStrFieldWith_some {o : List (String × JVal)} {k : String}
    {s : String} {f : String → JVal} (hs : s.isEmpty = false) :
    getField (addStrFieldWith o k (some s) f) k = some (f s) := by
  simp [addStrFieldWith, hs, getField_setField_self]

theorem Domain.ofString?_name (d : Domain) : Domain.ofString? d.name = some d := by
  cases d <;> rfl

theorem Domain.eq_name_of_ofString? {s : String} {d : Domain}
    (h : Domain.ofString? s = some d) : s = d.name := by
  unfold Domain.ofString? at h
  split_ifs at h with h1 h2 h3 h4 h5
  · injection h with h0; subst h0; exact h1
  · injection h with h0; subst h0; exact h2
  · injection h with h0; subst h0; exact h3
  · injection h with h0; subst h0; exact h4
  · injection h with h0; subst h0; exact h5

/-- Reduction of the CallTool handler at the navigate tool. -/
theorem callTool_navigate (creds : Option Credentials)
    (hc : Domain → String → JVal → CallResult) (st : Option Domain)
    (args : Option JVal) :
    callTool creds hc st "superops_navigate" args =
      (match (args.getD (.obj [])).get "domain" with
       | .str s =>
           match Domain.ofString? s with
           | some d => (some d, ⟨navSuccessText d, false⟩)
           | none => (st, ⟨invalidDomainText, true⟩)
       | _ => (st, ⟨invalidDomainText, true⟩)) := rfl

/-- Reduction of the CallTool handler away from the navigation tools. -/
theorem callTool_domain (creds : Option Credentials)
    (hc : Domain → String → JVal → CallResult) (st : Option Domain)
    (name : String) (args : Option JVal)
    (h1 : name ≠ "superops_test_connection") (h2 : name ≠ "superops_navigate")
    (h3 : name ≠ "superops_back") :
    callTool creds hc st name args =
      (match creds with
       | none => (st, ⟨credsErrorText, true⟩)
       | some _ =>
           match st with
           | some d =>
               if (domainToolNames d).contains name then
                 (some d, hc d name (args.getD (.obj [])))
               else fallbackDispatch hc (some d) name (args.getD (.obj []))
           | none => fallbackDispatch hc none name (args.getD (.obj []))) := by
  unfold callTool
  rw [if_neg h1, if_neg h2, if_neg h3]

/-! ## Claim theorems -/

/-- C2: a navigate call whose `domain` argument names one of the five
domains makes that domain active and returns a success result; any other
argument (missing, non-string, or an unlisted value) leaves the state
unchanged and returns an error result listing the five legal domains. -/
theorem navigate_validates_domain (creds : Option Credentials)
    (hc : Domain → String → JVal → CallResult) (st : Option Domain)
    (args : Option JVal) :
    (∀ d : Domain, (args.getD (.obj [])).get "domain" = .str d.name →
        callTool creds hc st "superops_navigate" args =
          (some d, ⟨navSuccessText d, false⟩))
    ∧ ((∀ d : Domain, (args.getD (.obj [])).get "domain" ≠ .str d.name) →
        callTool creds hc st "superops_navigate" args =
          (st, ⟨invalidDomainText, true⟩)) := by
  constructor
  · intro d h
    rw [callTool_navigate, h]
    dsimp only
    rw [Domain.ofString?_name]
  · intro h
    rw [callTool_navigate]
    split
    · rename_i s heq
      cases hof : Domain.ofString? s with
      | some d =>
          exact absurd (heq.trans (by rw [Domain.eq_name_of_ofString? hof])) (h d)
      | none => rfl
    · rfl

/-- C2 witness: navigating to tickets succeeds and activates tickets;
navigating to a bogus domain is rejected without a state change. -/
theorem navigate_validates_domain_witness :
    callTool none (fun _ _ _ => ⟨"", false⟩) none "superops_navigate"
        (some (.obj [("domain", .str "tickets")]))
      = (some Domain.tickets, ⟨navSuccessText Domain.tickets, false⟩)
    ∧ callTool none (fun _ _ _ => ⟨"", false⟩) (some Domain.assets) "superops_navigate"
        (some (.obj [("domain", .str "bogus")]))
      = (some Domain.assets, ⟨invalidDomainText, true⟩) := by
  constructor
  · exact (navigate_validates_domain none (fun _ _ _ => ⟨"", false⟩) none
      (some (.obj [("domain", .str "tickets")]))).1 Domain.tickets rfl
  · exact (navigate_validates_domain none (fun _ _ _ => ⟨"", false⟩) (some Domain.assets)
      (some (.obj [("domain", .str "bogus")]))).2
      (fun d => by cases d <;> (intro h; injection h with h2; exact absurd h2 (by decide)))

/-- C3: back() resets the active domain to none from any state (so it is
a no-op success when already in navigation state), and after
navigate(clients), any intervening calls, and back(), the listed tools
are exactly the connectivity probe and the navigate tool. -/
theorem back_resets_to_navigation (creds : Option Credentials)
    (hc : Domain → String → JVal → CallResult) (st : Option Domain)
    (calls : List (String × Option JVal)) :
    (∀ st2 : Option Domain,
        callTool creds hc st2 "superops_back" none = (none, ⟨backText, false⟩))
    ∧ listTools (callTool creds hc
        (runCalls creds hc
          ((callTool creds hc st "superops_navigate"
              (some (.obj [("domain", .str "clients")]))).1)
          calls)
        "superops_back" none).1 = [testConnectionTool, navigationTool] :=
  ⟨fun _ => rfl, rfl⟩

/-- C10: the test_connection handler never modifies the active-domain
state, whatever the credentials, the probe outcome, and the prior
state. -/
theorem test_connection_preserves_state (creds : Option Credentials)
    (hc : Domain → String → JVal → CallResult) (st : Option Domain)
    (args : Option JVal) :
    (callTool creds hc st "superops_test_connection" args).1 = st := by
  unfold callTool
  rw [if_pos rfl]
  cases creds with
  | none => rfl
  | some c =>
      dsimp only
      split <;> rfl

theorem fallbackDispatch_found (hc : Domain → String → JVal → CallResult)
    (st : Option Domain) (name : String) (args : JVal) (d : Domain)
    (h : allDomains.find? (fun d2 => (domainToolNames d2).contains name) = some d) :
    fallbackDispatch hc st name args = (some d, hc d name args) := by
  unfold fallbackDispatch
  rw [h]

theorem fallbackDispatch_missing (hc : Domain → String → JVal → CallResult)
    (st : Option Domain) (name : String) (args : JVal)
    (h : allDomains.find? (fun d2 => (domainToolNames d2).contains name) = none) :
    fallbackDispatch hc st name args = (st, ⟨unknownToolText name, true⟩) := by
  unfold fallbackDispatch
  rw [h]

/-- C1: a call whose name is not a navigation tool and does not belong to
the active domain, with credentials configured, scans the domains in the
fixed order of `allDomains`; the first domain whose catalog contains the
name becomes active and receives the call; when no catalog contains it,
the state is unchanged and an unknown-tool error suggesting navigate is
returned.  In particular a clients-domain tool name called from
navigation state is dispatched to clients, which becomes active. -/
theorem fallback_resolution (c : Credentials)
    (hc : Domain → String → JVal → CallResult) (st : Option Domain)
    (name : String) (args : Option JVal)
    (hn : name ∉ navToolNames)
    (hact : ∀ d, st = some d → (domainToolNames d).contains name = false) :
    (∀ d, allDomains.find? (fun d2 => (domainToolNames d2).contains name) = some d →
        callTool (some c) hc st name args = (some d, hc d name (args.getD (.obj []))))
    ∧ (allDomains.find? (fun d2 => (domainToolNames d2).contains name) = none →
        callTool (some c) hc st name args = (st, ⟨unknownToolText name, true⟩))
    ∧ (∀ cname, (domainToolNames Domain.clients).contains cname = true →
        callTool (some c) hc none cname args
          = (some Domain.clients, hc Domain.clients cname (args.getD (.obj [])))) := by
  simp only [navToolNames, List.mem_cons, List.not_mem_nil, or_false, not_or] at hn
  obtain ⟨h1, h2, h3⟩ := hn
  refine ⟨?_, ?_, ?_⟩
  · intro d hfind
    rw [callTool_domain _ _ _ _ _ h1 h2 h3]
    cases st with
    | none => exact fallbackDispatch_found hc none name _ d hfind
    | some d2 =>
        have hcd := hact d2 rfl
        dsimp only
        rw [hcd]
        simp only [Bool.false_eq_true, if_false]
        exact fallbackDispatch_found hc (some d2) name _ d hfind
  · intro hfind
    rw [callTool_domain _ _ _ _ _ h1 h2 h3]
    cases st with
    | none => exact fallbackDispatch_missing hc none name _ hfind
    | some d2 =>
        have hcd := hact d2 rfl
        dsimp only
        rw [hcd]
        simp only [Bool.false_eq_true, if_false]
        exact fallbackDispatch_missing hc (some d2) name _ hfind
  · intro cname hmem
    have hm : cname ∈ domainToolNames Domain.clients := by
      simpa using hmem
    simp only [domainToolNames, domainToolDefs, List.map_cons, List.map_nil,
      List.mem_cons, List.not_mem_nil, or_false] at hm
    rcases hm with h | h | h <;> subst h <;> rfl

/-- C1 witness: a clients-domain tool name called with no prior navigate
is dispatched and activates the clients domain. -/
theorem fallback_resolution_witness :
    callTool (some ⟨"tok", "sub", none⟩) (fun _ _ _ => ⟨"dispatched", false⟩) none
        "superops_clients_get" none
      = (some Domain.clients, ⟨"dispatched", false⟩) :=
  (fallback_resolution ⟨"tok", "sub", none⟩ (fun _ _ _ => ⟨"dispatched", false⟩) none
      "superops_clients_get" none (by decide) (fun _ h => by cases h)).2.2
    "superops_clients_get" (by decide)

/-- C4: in every domain module, any value thrown while dispatching a
known tool (an Error or a non-Error value alike) is caught at the
handleCall boundary and converted to an error result whose text is
`Error: ` followed by the Error message, or the string coercion for
non-Error values; nothing propagates as an exception. -/
theorem dispatch_catches_thrown (t : Thrown) :
    (∀ c : ClientsCall, (∀ n, c ≠ ClientsCall.unknown n) →
        clientsHandleCall (throwNet t) c = ⟨"Error: " ++ t.coerceMessage, true⟩)
    ∧ (∀ c : TicketsCall, (∀ n, c ≠ TicketsCall.unknown n) →
        ticketsHandleCall (throwNet t) c = ⟨"Error: " ++ t.coerceMessage, true⟩)
    ∧ (∀ c : AssetsCall, (∀ n, c ≠ AssetsCall.unknown n) →
        assetsHandleCall (throwNet t) c = ⟨"Error: " ++ t.coerceMessage, true⟩)
    ∧ (∀ c : TechniciansCall, (∀ n, c ≠ TechniciansCall.unknown n) →
        techniciansHandleCall (throwNet t) c = ⟨"Error: " ++ t.coerceMessage, true⟩)
    ∧ (∀ c : CustomCall, (∀ n, c ≠ CustomCall.unknown n) →
        customHandleCall (throwNet t) c = ⟨"Error: " ++ t.coerceMessage, true⟩) := by
  refine ⟨?_, ?_, ?_, ?_, ?_⟩ <;>
    (intro c h; cases c <;> first | rfl | exact absurd rfl (h _))

/-- C4 witness: a thrown bare string and a thrown Error are both
converted to `Error: <message>` results. -/
theorem dispatch_catches_thrown_witness :
    clientsHandleCall (throwNet (.other "boom")) (.get "A-1") = ⟨"Error: boom", true⟩
    ∧ customHandleCall (throwNet (.err "HTTP error: 500 oops")) (.query "query X" none)
      = ⟨"Error: HTTP error: 500 oops", true⟩ :=
  ⟨(dispatch_catches_thrown (.other "boom")).1 _ (fun _ h => by cases h),
   (dispatch_catches_thrown (.err "HTTP error: 500 oops")).2.2.2.2 _ (fun _ h => by cases h)⟩

/-- C5 counterexample: superops_tickets_update with status "open" puts
the literal "open" into the mutation input, not "OPEN" — the status
argument of the update mutation is not case-normalized. -/
theorem update_status_not_uppercased :
    getField (ticketsUpdateInput ⟨"T-1", some "open", none, none, none, none⟩) "status"
      = some (JVal.str "open")
    ∧ JVal.str "open" ≠ JVal.str "OPEN" := by
  constructor
  · rfl
  · intro h
    injection h with h2
    exact absurd h2 (by decide)

/-- C5 (amended): the priority argument of superops_tickets_create and
superops_tickets_update, when present and non-empty, is upper-cased
before inclusion in the mutation input; the status argument of
superops_tickets_update and the status and priority filter values of
superops_tickets_list are passed through unchanged. -/
theorem mutation_priority_case_rules
    (cp : TicketsCreateParams) (up : TicketsUpdateParams) (lp : TicketsListParams)
    (p q s : String) (xs ys : List String)
    (hp : cp.priority = some p) (hpe : p.isEmpty = false)
    (hq : up.priority = some q) (hqe : q.isEmpty = false)
    (hs : up.status = some s) (hse : s.isEmpty = false)
    (hx : lp.status = some xs) (hy : lp.priority = some ys) :
    getField (ticketsCreateInput cp) "priority" = some (.str (jsToUpper p))
    ∧ getField (ticketsUpdateInput up) "priority" = some (.str (jsToUpper q))
    ∧ getField (ticketsUpdateInput up) "status" = some (.str s)
    ∧ getField (ticketsListFilter lp) "status" = some (.arr (xs.map JVal.str))
    ∧ getField (ticketsListFilter lp) "priority" = some (.arr (ys.map JVal.str)) := by
  refine ⟨?_, ?_, ?_, ?_, ?_⟩
  · unfold ticketsCreateInput
    rw [getField_addStrFieldWith_ne (show "category" ≠ "priority" by decide),
        getField_addStrFieldWith_ne (show "techGroup" ≠ "priority" by decide),
        getField_addStrFieldWith_ne (show "requester" ≠ "priority" by decide),
        hp, getField_addStrFieldWith_some hpe]
  · unfold ticketsUpdateInput addStrField
    rw [getField_addStrFieldWith_ne (show "resolution" ≠ "priority" by decide),
        getField_addStrFieldWith_ne (show "techGroup" ≠ "priority" by decide),
        getField_addStrFieldWith_ne (show "assignee" ≠ "priority" by decide),
        hq, getField_addStrFieldWith_some hqe]
  · unfold ticketsUpdateInput addStrField
    rw [getField_addStrFieldWith_ne (show "resolution" ≠ "status" by decide),
        getField_addStrFieldWith_ne (show "techGroup" ≠ "status" by decide),
        getField_addStrFieldWith_ne (show "assignee" ≠ "status" by decide),
        getField_addStrFieldWith_ne (show "priority" ≠ "status" by decide),
        hs, getField_addStrFieldWith_some hse]
  · unfold ticketsListFilter
    rw [hx, hy]
    by_cases hu : lp.unassigned = some true
    · rw [if_pos hu,
          getField_setField_ne (show "assignee" ≠ "status" by decide),
          getField_addStrFieldWith_ne (show "assignee" ≠ "status" by decide),
          getField_addStrFieldWith_ne (show "client" ≠ "status" by decide),
          getField_setField_ne (show "priority" ≠ "status" by decide),
          getField_setField_self]
    · rw [if_neg hu,
          getField_addStrFieldWith_ne (show "assignee" ≠ "status" by decide),
          getField_addStrFieldWith_ne (show "client" ≠ "status" by decide),
          getField_setField_ne (show "priority" ≠ "status" by decide),
          getField_setField_self]
  · unfold ticketsListFilter
    rw [hx, hy]
    by_cases hu : lp.unassigned = some true
    · rw [if_pos hu,
          getField_setField_ne (show "assignee" ≠ "priority" by decide),
          getField_addStrFieldWith_ne (show "assignee" ≠ "priority" by decide),
          getField_addStrFieldWith_ne (show "client" ≠ "priority" by decide),
          getField_setField_self]
    · rw [if_neg hu,
          getField_addStrFieldWith_ne (show "assignee" ≠ "priority" by decide),
          getField_addStrFieldWith_ne (show "client" ≠ "priority" by decide),
          getField_setField_self]

/-- C5 witness: priority "critical" becomes "CRITICAL" in the create
mutation input while update status and list filters pass through. -/
theorem mutation_priority_case_rules_witness :
    jsToUpper "critical" = "CRITICAL"
    ∧ (getField (ticketsCreateInput ⟨"Subj", "C-1", none, some "critical", none, none, none⟩)
         "priority" = some (.str (jsToUpper "critical"))
       ∧ getField (ticketsUpdateInput ⟨"T-1", some "Resolved", some "low", none, none, none⟩)
           "priority" = some (.str (jsToUpper "low"))
       ∧ getField (ticketsUpdateInput ⟨"T-1", some "Resolved", some "low", none, none, none⟩)
           "status" = some (.str "Resolved")
       ∧ getField (ticketsListFilter
             ⟨some ["Open"], some ["High"], none, none, none, none, none⟩)
           "status" = some (.arr (["Open"].map JVal.str))
       ∧ getField (ticketsListFilter
             ⟨some ["Open"], some ["High"], none, none, none, none, none⟩)
           "priority" = some (.arr (["High"].map JVal.str))) :=
  ⟨by decide,
   mutation_priority_case_rules
     ⟨"Subj", "C-1", none, some "critical", none, none, none⟩
     ⟨"T-1", some "Resolved", some "low", none, none, none⟩
     ⟨some ["Open"], some ["High"], none, none, none, none, none⟩
     "critical" "low" "Resolved" ["Open"] ["High"]
     rfl rfl rfl rfl rfl rfl rfl rfl⟩

/-- C6: superops_clients_list with no arguments issues an input with
`first` 50 and the name/ASC orderBy and no filter key; for every
requested max the issued `first` is `min(max ?? 50, 500)`, so max 1000
is clamped to 500. -/
theorem clients_list_first_clamped :
    clientsListInput ⟨none, none, none, none⟩ =
      [("first", JVal.num 50),
       ("orderBy", JVal.obj [("field", .str "name"), ("direction", .str "ASC")])]
    ∧ (∀ p : ClientsListParams,
        getField (clientsListInput p) "first" = some (.num (min (p.max.getD 50) 500)))
    ∧ getField (clientsListInput ⟨none, none, some 1000, none⟩) "first"
        = some (.num 500) := by
  have h2 : ∀ p : ClientsListParams,
      getField (clientsListInput p) "first" = some (.num (min (p.max.getD 50) 500)) := by
    intro p
    simp [clientsListInput, clampFirst, getField]
  refine ⟨?_, h2, ?_⟩
  · show clientsListInput ⟨none, none, none, none⟩ = _
    unfold clientsListInput clientsListFilter
    norm_num [clampFirst, afterFields, filterFields, addStrField, addStrFieldWith]
  · rw [h2 ⟨none, none, some 1000, none⟩]
    norm_num

/-- C7: superops_technicians_list with no arguments contributes exactly
the filter isActive true; with activeOnly false no isActive key is
contributed; and when the filter ends up empty the filter key is omitted
from the input entirely. -/
theorem technicians_filter_rules :
    techniciansListFilter ⟨none, none, none, none⟩ = [("isActive", JVal.bool true)]
    ∧ (∀ p : TechniciansListParams, p.activeOnly = some false →
        getField (techniciansListFilter p) "isActive" = none)
    ∧ (∀ p : TechniciansListParams, techniciansListFilter p = [] →
        getField (techniciansListInput p) "filter" = none) := by
  refine ⟨rfl, ?_, ?_⟩
  · intro p h
    unfold techniciansListFilter
    rw [if_neg (by simp [h])]
    rw [getField_addStrFieldWith_ne (show "teams" ≠ "isActive" by decide)]
    rfl
  · intro p h
    unfold techniciansListInput
    rw [h]
    cases hc : p.cursor with
    | none => simp [afterFields, filterFields, getField]
    | some c =>
        by_cases he : c.isEmpty <;>
          simp [afterFields, he, filterFields, getField]

/-- C7 witness: with activeOnly false and no other argument, the filter
has no isActive key and the request has no filter key. -/
theorem technicians_filter_rules_witness :
    getField (techniciansListFilter ⟨some false, none, none, none⟩) "isActive" = none
    ∧ getField (techniciansListInput ⟨some false, none, none, none⟩) "filter" = none :=
  ⟨technicians_filter_rules.2.1 ⟨some false, none, none, none⟩ rfl,
   technicians_filter_rules.2.2 ⟨some false, none, none, none⟩ rfl⟩

/-- C8: superops_tickets_list with unassigned true sends a filter whose
assignee key is the literal null value, while absent optional filter
fields contribute no key at all. -/
theorem tickets_unassigned_null (p : TicketsListParams)
    (h : p.unassigned = some true) :
    getField (ticketsListFilter p) "assignee" = some JVal.null
    ∧ (p.status = none → getField (ticketsListFilter p) "status" = none)
    ∧ (p.priority = none → getField (ticketsListFilter p) "priority" = none)
    ∧ (p.clientId = none → getField (ticketsListFilter p) "client" = none) := by
  refine ⟨?_, ?_, ?_, ?_⟩
  · unfold ticketsListFilter
    rw [if_pos h, getField_setField_self]
  · intro h2
    unfold ticketsListFilter
    rw [h2, if_pos h,
        getField_setField_ne (show "assignee" ≠ "status" by decide),
        getField_addStrFieldWith_ne (show "assignee" ≠ "status" by decide),
        getField_addStrFieldWith_ne (show "client" ≠ "status" by decide)]
    cases hp : p.priority with
    | none => rfl
    | some ys =>
        rw [getField_setField_ne (show "priority" ≠ "status" by decide)]
        rfl
  · intro h2
    unfold ticketsListFilter
    rw [h2, if_pos h,
        getField_setField_ne (show "assignee" ≠ "priority" by decide),
        getField_addStrFieldWith_ne (show "assignee" ≠ "priority" by decide),
        getField_addStrFieldWith_ne (show "client" ≠ "priority" by decide)]
    cases hs : p.status with
    | none => rfl
    | some xs =>
        rw [getField_setField_ne (show "status" ≠ "priority" by decide)]
        rfl
  · intro h2
    unfold ticketsListFilter
    rw [h2, if_pos h,
        getField_setField_ne (show "assignee" ≠ "client" by decide),
        getField_addStrFieldWith_ne (show "assignee" ≠ "client" by decide)]
    cases hs : p.status with
    | none =>
        cases hp : p.priority with
        | none => rfl
        | some ys => rfl
    | some xs =>
        cases hp : p.priority with
        | none => rfl
        | some ys => rfl

/-- C8 witness: with only unassigned true, the filter carries assignee
null and no status, priority or client key. -/
theorem tickets_unassigned_null_witness :
    getField (ticketsListFilter ⟨none, none, none, none, some true, none, none⟩)
        "assignee" = some JVal.null
    ∧ getField (ticketsListFilter ⟨none, none, none, none, some true, none, none⟩)
        "status" = none :=
  ⟨(tickets_unassigned_null ⟨none, none, none, none, some true, none, none⟩ rfl).1,
   (tickets_unassigned_null ⟨none, none, none, none, some true, none, none⟩ rfl).2.1 rfl⟩

/-- C9: the transport normalizes every response into exactly one of four
outcomes — an HTTP error carrying status code and status text on a
non-success status; on success with a non-empty errors list, a domain
error carrying the first error message and the optional code and
retry-after hints of its extensions; a generic no-data error when no
errors but also no (truthy) data payload; the data payload otherwise. -/
theorem query_error_taxonomy (resp : HttpResponse) :
    (resp.ok = false →
        SuperOpsClient.query resp =
          .error (.err ("HTTP error: " ++ toString resp.status ++ " " ++ resp.statusText)))
    ∧ (∀ e rest, resp.ok = true → resp.body.errors = some (e :: rest) →
        SuperOpsClient.query resp =
          .error (.superOps e.message (e.extensions.bind (fun x => x.code))
            (e.extensions.bind (fun x => x.retryAfter))))
    ∧ (resp.ok = true → (resp.body.errors = none ∨ resp.body.errors = some []) →
        ((resp.body.data = none → SuperOpsClient.query resp =
            .error (.err "No data returned from GraphQL query"))
         ∧ (∀ d, resp.body.data = some d → d.truthy = false →
              SuperOpsClient.query resp =
                .error (.err "No data returned from GraphQL query"))
         ∧ (∀ d, resp.body.data = some d → d.truthy = true →
              SuperOpsClient.query resp = .ok d))) := by
  refine ⟨?_, ?_, ?_⟩
  · intro hok
    unfold SuperOpsClient.query
    rw [hok]
    rfl
  · intro e rest hok herr
    unfold SuperOpsClient.query
    rw [hok, herr]
    rfl
  · intro hok herr
    refine ⟨?_, ?_, ?_⟩
    · intro hd
      unfold SuperOpsClient.query
      rw [hok]
      rcases herr with h | h <;> rw [h] <;> rw [hd] <;> rfl
    · intro d hd ht
      unfold SuperOpsClient.query
      rw [hok]
      rcases herr with h | h <;> rw [h] <;> rw [hd] <;> simp [ht]
    · intro d hd ht
      unfold SuperOpsClient.query
      rw [hok]
      rcases herr with h | h <;> rw [h] <;> rw [hd] <;> simp [ht]

/-- C9 witness: the four outcomes at concrete responses — HTTP 500,
a rate-limit GraphQL error with extensions, a success without data, and
a success with data. -/
theorem query_error_taxonomy_witness :
    SuperOpsClient.query ⟨false, 500, "Internal Server Error", ⟨none, none⟩⟩ =
      .error (.err "HTTP error: 500 Internal Server Error")
    ∧ SuperOpsClient.query
        ⟨true, 200, "OK",
         ⟨none, some [⟨"Rate limit exceeded", some ⟨some "RATE_LIMITED", some 30⟩⟩]⟩⟩ =
      .error (.superOps "Rate limit exceeded" (some "RATE_LIMITED") (some 30))
    ∧ SuperOpsClient.query ⟨true, 200, "OK", ⟨none, none⟩⟩ =
      .error (.err "No data returned from GraphQL query")
    ∧ SuperOpsClient.query ⟨true, 200, "OK", ⟨some (.obj [("x", .num 1)]), none⟩⟩ =
      .ok (.obj [("x", .num 1)]) :=
  ⟨(query_error_taxonomy _).1 rfl,
   (query_error_taxonomy _).2.1 ⟨"Rate limit exceeded", some ⟨some "RATE_LIMITED", some 30⟩⟩
     [] rfl rfl,
   ((query_error_taxonomy _).2.2 rfl (Or.inl rfl)).1 rfl,
   ((query_error_taxonomy _).2.2 rfl (Or.inl rfl)).2.2 (.obj [("x", .num 1)]) rfl rfl⟩

end SuperOps
